import Mathlib

/-!
Shallow embedding of src/src/versions/imperative-remote/types.ts:
the delta Publisher (createMapArrayRemoteSubscribable) and the stateful
Reconciler (makeStatefulListSubscribable), as executable state machines.
-/

namespace StateBridge

/-- The keyed collection type MapArray of types.ts: an ordered list of
(key, value) entries with string keys. -/
abbrev MapArray (T : Type) : Type := List (String × T)

/-- The Delta interface of types.ts: entries added and keys removed. -/
structure Delta (T : Type) where
  added : MapArray T
  removed : List String
  deriving DecidableEq

variable {T : Type}

/-- The delta built inside the source listener of
createMapArrayRemoteSubscribable.subscribe (types.ts lines 95 to 106):
added is the entries of next whose key does not occur in the closed-over
collection, removed is the keys of the closed-over collection that do not
occur in next. The comparison is by key only. -/
def computeDelta (current next : MapArray T) : Delta T :=
  { added := next.filter fun p => !(current.any fun q => q.1 == p.1)
    removed := (current.filter fun p => !(next.any fun q => p.1 == q.1)).map fun p => p.1 }

/-- State of one Publisher instance (createMapArrayRemoteSubscribable):
the live underlying collection (subscription.current), the collection the
source binds as the local constant named current at construction time
(types.ts line 82, initialized from initial and never reassigned), the
version counter (line 83), and the listeners registered on the underlying
source by calls to subscribe, in registration order. -/
structure PubState (T : Type) where
  source : MapArray T
  currentRef : MapArray T
  version : Nat
  subs : List Nat
  deriving DecidableEq

/-- Events a Publisher reacts to: an underlying collection change, a call to
its subscribe method registering a listener id, and that listener's teardown. -/
inductive PubEvent (T : Type) where
  | change (next : MapArray T)
  | subscribe (id : Nat)
  | teardown (id : Nat)

/-- One call of a Publisher subscriber: which subscriber, the delta payload,
and the version number sent with it. -/
structure Emission (T : Type) where
  sub : Nat
  delta : Delta T
  version : Nat
  deriving DecidableEq

/-- The underlying source invokes every registered listener on a change; each
listener first increments the shared version counter (types.ts line 93) and
then emits to its own subscriber (line 108). Returns the emissions in listener
registration order together with the final counter value. -/
def emitLoop (subs : List Nat) (d : Delta T) (v : Nat) : List (Emission T) × Nat :=
  match subs with
  | [] => ([], v)
  | id :: rest =>
    let tail := emitLoop rest d (v + 1)
    (⟨id, d, v + 1⟩ :: tail.1, tail.2)

/-- One step of the Publisher machine.  A change sets the live collection to
next, computes the delta against the never-reassigned construction-time
collection, and lets every registered listener bump the counter and emit.
subscribe appends a listener; teardown removes it. -/
def pubStep (s : PubState T) : PubEvent T → PubState T × List (Emission T)
  | .change next =>
    let em := emitLoop s.subs (computeDelta s.currentRef next) s.version
    ({ s with source := next, version := em.2 }, em.1)
  | .subscribe id => ({ s with subs := s.subs ++ [id] }, [])
  | .teardown id => ({ s with subs := s.subs.erase id }, [])

/-- Publisher state right after createMapArrayRemoteSubscribable returns:
both the live collection and the captured constant equal the underlying
collection, the version counter is 1, no listener is registered. -/
def pubInit (initial : MapArray T) : PubState T :=
  { source := initial, currentRef := initial, version := 1, subs := [] }

/-- Run a Publisher over a list of events, collecting all emissions in order. -/
def pubRun (s : PubState T) : List (PubEvent T) → PubState T × List (Emission T)
  | [] => (s, [])
  | e :: es =>
    let r := pubStep s e
    let rest := pubRun r.1 es
    (rest.1, r.2 ++ rest.2)

/-- getCurrent of types.ts (lines 119 to 121): the live underlying collection
paired with the version counter, both read in the same step. -/
def getCurrent (s : PubState T) : MapArray T × Nat := (s.source, s.version)

/-- What the Reconciler listener (types.ts line 180) receives: a delta or a
raw full collection. -/
inductive Payload (T : Type) where
  | delta (d : Delta T)
  | full (value : MapArray T)

/-- State of one Reconciler instance (makeStatefulListSubscribable): the
materialized collection, the local version counter, the listening flag, and
the registered subscriber set (types.ts lines 135 to 150), modelled by ids in
insertion order without duplicates. -/
structure RecState (T : Type) where
  current : MapArray T
  version : Nat
  listening : Bool
  subscribers : List Nat
  deriving DecidableEq

/-- Outcome of one listener invocation: the new Reconciler state and the
calls made to Reconciler subscribers, each carrying the collection it was
passed. -/
structure ListenResult (T : Type) where
  state : RecState T
  notified : List (Nat × MapArray T)
  deriving DecidableEq

/-- Payload application of types.ts lines 198 to 205: for a delta, push every
added entry onto the collection and then keep only entries whose key is not in
removed; for a raw collection, replace wholesale. -/
def applyPayload (cur : MapArray T) : Payload T → MapArray T
  | .delta d => (cur ++ d.added).filter fun p => !(d.removed.contains p.1)
  | .full v => v

/-- The internal listener of types.ts lines 179 to 210.  It increments the
local counter; on a version mismatch it overwrites collection and counter with
hostPair, the pair the getCurrent call resolves to; if the listening flag is
unset it stops there; otherwise it applies the payload to whatever collection
it now holds and calls every registered subscriber with the result. -/
def listener (s : RecState T) (value : Payload T) (incoming : Nat)
    (hostPair : MapArray T × Nat) : ListenResult T :=
  let bumped := s.version + 1
  let cur := if incoming = bumped then s.current else hostPair.1
  let ver := if incoming = bumped then bumped else hostPair.2
  if s.listening then
    let newCur := applyPayload cur value
    { state := { s with current := newCur, version := ver }
      notified := s.subscribers.map fun id => (id, newCur) }
  else
    { state := { s with current := cur, version := ver }, notified := [] }

/-- subscribe of the Reconciler (types.ts lines 162 to 164): add the callback
to the subscriber set. -/
def recSubscribe (s : RecState T) (id : Nat) : RecState T :=
  { s with subscribers := if s.subscribers.contains id then s.subscribers
                          else s.subscribers ++ [id] }

/-- The unsubscribe closure returned by subscribe (types.ts lines 165 to 167):
delete the callback from the subscriber set. -/
def recUnsubscribe (s : RecState T) (id : Nat) : RecState T :=
  { s with subscribers := s.subscribers.filter fun j => !(j == id) }

/-- destroy of types.ts lines 169 to 176, restricted to the Reconciler's own
state: unset the listening flag and clear the subscriber set. -/
def destroy (s : RecState T) : RecState T :=
  { s with listening := false, subscribers := [] }

/-- Reconciler state right after construction (types.ts lines 135 to 150):
collection and counter seeded from the pair getCurrent resolved to, listening
set, no subscribers. -/
def recInit (hostPair : MapArray T × Nat) : RecState T :=
  { current := hostPair.1, version := hostPair.2, listening := true, subscribers := [] }

/-- Host and remote composed, with in-order lossless delivery: a Publisher is
built over the initial collection, a Reconciler is constructed (seeding from
getCurrent) and its listener registered, then each change is applied on the
host and every resulting emission is delivered to the listener immediately,
the resync fetch (unused when delivery is in order) resolving to the live
getCurrent pair. -/
def pipeline (initial : MapArray T) (changes : List (MapArray T)) :
    PubState T × RecState T :=
  let ps0 := (pubStep (pubInit initial) (.subscribe 0)).1
  let rs0 := recInit (getCurrent (pubInit initial))
  changes.foldl
    (fun st next =>
      let r := pubStep st.1 (.change next)
      let rs := r.2.foldl
        (fun rs e => (listener rs (.delta e.delta) e.version (getCurrent r.1)).state)
        st.2
      (r.1, rs))
    (ps0, rs0)

/-- The two collections agree as sets of (key, value) entries. -/
def entrySetEq (a b : MapArray T) : Prop := ∀ p : String × T, p ∈ a ↔ p ∈ b

/-- The cross-boundary retention calls and underlying-source registrations a
Publisher subscription performs, in order. -/
inductive RpcEffect where
  | retain (id : Nat)
  | release (id : Nat)
  | sourceSubscribe (id : Nat)
  | sourceUnsubscribe (id : Nat)
  deriving DecidableEq

/-- Effect order of the Publisher's subscribe (types.ts lines 88 to 91): the
subscriber is retained first, then the listener is registered on the
underlying source. -/
def pubSubscribeEffects (id : Nat) : List RpcEffect :=
  [.retain id, .sourceSubscribe id]

/-- Effect order of the teardown closure (types.ts lines 112 to 115): the
underlying-source listener is unregistered first, then the subscriber's
retention is released. -/
def pubTeardownEffects (id : Nat) : List RpcEffect :=
  [.sourceUnsubscribe id, .release id]

/-- The world the effects act on: the retention table and the listener list
of the underlying source. -/
structure RpcWorld where
  retained : List Nat
  sourceSubs : List Nat
  deriving DecidableEq

/-- Interpretation of one effect on the world. -/
def applyEffect (w : RpcWorld) : RpcEffect → RpcWorld
  | .retain id => { w with retained := w.retained ++ [id] }
  | .release id => { w with retained := w.retained.erase id }
  | .sourceSubscribe id => { w with sourceSubs := w.sourceSubs ++ [id] }
  | .sourceUnsubscribe id => { w with sourceSubs := w.sourceSubs.erase id }

/-- Run a list of effects left to right. -/
def runEffects (w : RpcWorld) (l : List RpcEffect) : RpcWorld :=
  l.foldl applyEffect w

/-- C1: the round-trip claim fails on the code.  Failing input: a Publisher
over [("1", 0)], one Reconciler attached, host changes delivered in order and
without loss: first to [], then back to [("1", 0)].  Because the Publisher
computes every delta against its never-reassigned construction-time
collection, the second delta is empty and the Reconciler ends with [],
while the host's live collection is [("1", 0)]: the entry sets differ. -/
theorem C1_roundtrip_fails_on_code :
    (pipeline ([("1", 0)] : MapArray Nat) [[], [("1", 0)]]).2.current = [] ∧
    (pipeline ([("1", 0)] : MapArray Nat) [[], [("1", 0)]]).1.source = [("1", 0)] ∧
    ¬ entrySetEq (pipeline ([("1", 0)] : MapArray Nat) [[], [("1", 0)]]).2.current
      (pipeline ([("1", 0)] : MapArray Nat) [[], [("1", 0)]]).1.source := by
  refine ⟨by decide, by decide, fun h => ?_⟩
  have h1 : ("1", 0) ∈ (pipeline ([("1", 0)] : MapArray Nat) [[], [("1", 0)]]).1.source := by
    decide
  have h2 := (h ("1", 0)).2 h1
  exact absurd h2 (by decide)

/-- C2: deltas are not computed against the previous value.  Failing input:
Publisher over [("1", 0)] with one subscriber; the host changes to [] and then
to [("1", 0)].  The collection before the second change is [], so the claim
requires the second delta to be added = [("1", 0)], removed = []; the code,
comparing against the construction-time collection [("1", 0)], emits the empty
delta added = [], removed = [] at version 3. -/
theorem C2_delta_not_against_prev :
    (pubRun (pubInit ([("1", 0)] : MapArray Nat))
        [.subscribe 0, .change [], .change [("1", 0)]]).2 =
      [⟨0, ⟨[], ["1"]⟩, 2⟩, ⟨0, ⟨[], []⟩, 3⟩] ∧
    (pubRun (pubInit ([("1", 0)] : MapArray Nat)) [.subscribe 0, .change []]).1.source = [] ∧
    computeDelta ([] : MapArray Nat) [("1", 0)] = ⟨[("1", 0)], []⟩ ∧
    (⟨0, ⟨[], []⟩, 3⟩ : Emission Nat).delta ≠ computeDelta ([] : MapArray Nat) [("1", 0)] := by
  refine ⟨by decide, by decide, by decide, by decide⟩

/-- C3: desync recovery does not discard the triggering delta.  Failing
input: a listening Reconciler at current = [("1", 0)], version 1, receiving
the delta (added = [], removed = ["1"]) tagged version 5, with getCurrent
resolving to ([("1", 0)], 5).  The claim requires current to equal the
fetched value [("1", 0)]; the code applies the delta on top of the fetched
value and ends with current = []. -/
theorem C3_delta_applied_after_resync :
    (listener (⟨[("1", 0)], 1, true, []⟩ : RecState Nat)
        (.delta ⟨[], ["1"]⟩) 5 ([("1", 0)], 5)).state.current = [] ∧
    (listener (⟨[("1", 0)], 1, true, []⟩ : RecState Nat)
        (.delta ⟨[], ["1"]⟩) 5 ([("1", 0)], 5)).state.version = 5 ∧
    (listener (⟨[("1", 0)], 1, true, []⟩ : RecState Nat)
        (.delta ⟨[], ["1"]⟩) 5 ([("1", 0)], 5)).state.current ≠ [("1", 0)] := by
  refine ⟨by decide, by decide, by decide⟩

/-- C4 counterexample: a value update to an existing key is not emitted as an
add.  Publisher over [("1", 0)] with one subscriber; the host changes to
[("1", 1)] (key "1" present before and after, value changed).  The single
emitted delta is added = [], removed = [] and so does not contain
("1", 1), refuting the upsert claim. -/
theorem C4_value_update_counterexample :
    (pubRun (pubInit ([("1", 0)] : MapArray Nat)) [.subscribe 0, .change [("1", 1)]]).2 =
      [⟨0, ⟨[], []⟩, 2⟩] ∧
    ("1", 1) ∉
      (⟨0, ⟨[], []⟩, 2⟩ : Emission Nat).delta.added := by
  refine ⟨by decide, by decide⟩

/-- C4 amended: a key present in the Publisher's reference collection never
appears in the emitted added entries, even when its value changed; and a key
still present in the next collection never appears in removed.  A value-only
update therefore contributes nothing at all to the delta. -/
theorem C4_amended_value_update_invisible (cur next : MapArray T)
    (k : String) (v w : T) (hcur : (k, w) ∈ cur) (hnext : (k, v) ∈ next) :
    (k, v) ∉ (computeDelta cur next).added ∧ k ∉ (computeDelta cur next).removed := by
  constructor
  · intro hmem
    have h := List.mem_filter.1 hmem
    have hany : cur.any (fun q => q.1 == (k, v).1) = true :=
      List.any_eq_true.2 ⟨(k, w), hcur, by simp⟩
    simp [hany] at h
  · intro hmem
    rcases List.mem_map.1 hmem with ⟨p, hp, hk⟩
    have h := List.mem_filter.1 hp
    have hany : next.any (fun q => p.1 == q.1) = true :=
      List.any_eq_true.2 ⟨(k, v), hnext, by simp [hk]⟩
    simp [hany] at h

/-- C4 amended, witnessed at the counterexample input: reference collection
[("1", 0)], next collection [("1", 1)]. -/
theorem C4_amended_witness :
    (("1", 0) ∈ ([("1", 0)] : MapArray Nat)) ∧
    (("1", 1) ∈ ([("1", 1)] : MapArray Nat)) ∧
    (("1", 1) ∉ (computeDelta ([("1", 0)] : MapArray Nat) [("1", 1)]).added ∧
      "1" ∉ (computeDelta ([("1", 0)] : MapArray Nat) [("1", 1)]).removed) :=
  ⟨by decide, by decide,
    C4_amended_value_update_invisible [("1", 0)] [("1", 1)] "1" 1 0 (by decide) (by decide)⟩

/-- Unfolding of pubRun on a cons: final state. -/
theorem pubRun_cons_fst (s : PubState T) (e : PubEvent T) (es : List (PubEvent T)) :
    (pubRun s (e :: es)).1 = (pubRun (pubStep s e).1 es).1 :=
  rfl

/-- Unfolding of pubRun on a cons: collected emissions. -/
theorem pubRun_cons_snd (s : PubState T) (e : PubEvent T) (es : List (PubEvent T)) :
    (pubRun s (e :: es)).2 = (pubStep s e).2 ++ (pubRun (pubStep s e).1 es).2 :=
  rfl

/-- The emission loop advances the counter once per registered listener and
stamps the emissions with the consecutive versions v + 1, ..., v + n. -/
theorem emitLoop_spec (subs : List Nat) (d : Delta T) (v : Nat) :
    (emitLoop subs d v).2 = v + subs.length ∧
    (emitLoop subs d v).1.length = subs.length ∧
    ((emitLoop subs d v).1.map fun e => e.version) = List.range' (v + 1) subs.length := by
  induction subs generalizing v with
  | nil => simp [emitLoop]
  | cons id rest ih =>
    obtain ⟨h1, h2, h3⟩ := ih (v + 1)
    refine ⟨?_, ?_, ?_⟩
    · simp [emitLoop, h1]; omega
    · simp [emitLoop, h2]
    · simp [emitLoop, h3, List.range'_succ]

/-- Along any run, the final counter is the initial counter plus the number
of emissions, and the emitted versions are exactly the consecutive numbers
starting one above the initial counter. -/
theorem pubRun_version_trace (s : PubState T) (t : List (PubEvent T)) :
    (pubRun s t).1.version = s.version + (pubRun s t).2.length ∧
    ((pubRun s t).2.map fun e => e.version) =
      List.range' (s.version + 1) (pubRun s t).2.length := by
  induction t generalizing s with
  | nil => simp [pubRun]
  | cons e es ih =>
    cases e with
    | change next =>
      obtain ⟨he1, he2, he3⟩ := emitLoop_spec s.subs (computeDelta s.currentRef next) s.version
      obtain ⟨hr1, hr2⟩ := ih (pubStep s (.change next)).1
      have hv : (pubStep s (.change next)).1.version = s.version + s.subs.length := he1
      have hem : (pubStep s (.change next)).2.length = s.subs.length := he2
      have hmap : ((pubStep s (.change next)).2.map fun e => e.version) =
          List.range' (s.version + 1) s.subs.length := he3
      rw [hv] at hr1 hr2
      constructor
      · rw [pubRun_cons_fst, pubRun_cons_snd, hr1, List.length_append, hem]
        omega
      · rw [pubRun_cons_snd, List.map_append, hmap, hr2, List.length_append, hem]
        have h : s.version + s.subs.length + 1 = s.version + 1 + s.subs.length := by omega
        rw [h, List.range'_append_1]
        congr 1
        omega
    | subscribe id =>
      obtain ⟨hr1, hr2⟩ := ih (pubStep s (.subscribe id)).1
      have hv : (pubStep s (.subscribe id)).1.version = s.version := rfl
      have hnil : (pubStep s (.subscribe id)).2 = ([] : List (Emission T)) := rfl
      rw [hv] at hr1 hr2
      constructor
      · rw [pubRun_cons_fst, pubRun_cons_snd, hnil, List.nil_append, hr1]
      · rw [pubRun_cons_snd, hnil, List.nil_append, hr2]
    | teardown id =>
      obtain ⟨hr1, hr2⟩ := ih (pubStep s (.teardown id)).1
      have hv : (pubStep s (.teardown id)).1.version = s.version := rfl
      have hnil : (pubStep s (.teardown id)).2 = ([] : List (Emission T)) := rfl
      rw [hv] at hr1 hr2
      constructor
      · rw [pubRun_cons_fst, pubRun_cons_snd, hnil, List.nil_append, hr1]
      · rw [pubRun_cons_snd, hnil, List.nil_append, hr2]

/-- C5 counterexample: with two registered subscribers a single underlying
change advances the counter by 2, not 1.  Publisher over [], two subscribers,
one change to [("1", 0)]: subscriber 0 receives version 2 and subscriber 1
receives version 3, and the counter ends at 3 rather than 2. -/
theorem C5_two_subscriber_counterexample :
    ((pubRun (pubInit ([] : MapArray Nat))
        [.subscribe 0, .subscribe 1, .change [("1", 0)]]).2.map
        fun e => (e.sub, e.version)) = [(0, 2), (1, 3)] ∧
    (pubRun (pubInit ([] : MapArray Nat))
        [.subscribe 0, .subscribe 1, .change [("1", 0)]]).1.version = 3 ∧
    (pubRun (pubInit ([] : MapArray Nat))
        [.subscribe 0, .subscribe 1, .change [("1", 0)]]).1.version ≠ 1 + 1 := by
  refine ⟨by decide, by decide, by decide⟩

/-- C5 amended: the counter starts at 1 and advances by exactly 1 per
emission (so by the number of registered subscribers per underlying change,
not by 1 per change); across any event sequence the versions attached to
successive emissions form the consecutive, strictly increasing sequence
2, 3, 4, ..., and the counter always equals 1 plus the number of emissions
so far. -/
theorem C5_amended_version_per_emission (initial : MapArray T) (t : List (PubEvent T)) :
    (pubRun (pubInit initial) t).1.version = 1 + (pubRun (pubInit initial) t).2.length ∧
    ((pubRun (pubInit initial) t).2.map fun e => e.version) =
      List.range' 2 (pubRun (pubInit initial) t).2.length := by
  obtain ⟨h1, h2⟩ := pubRun_version_trace (pubInit initial) t
  constructor
  · rw [h1]
    simp [pubInit]
  · rw [h2]
    simp [pubInit]

/-- C6 counterexample: destroy is not a full delivery barrier.  A Reconciler
at current = [("1", 0)], version 1, with subscriber 7, is destroyed; then the
listener receives the empty delta tagged version 5 (a mismatch), the resync
fetch resolving to ([("2", 1)], 5).  No subscriber is invoked, but current is
overwritten to [("2", 1)], so the delivery did mutate current. -/
theorem C6_destroy_barrier_counterexample :
    (listener (destroy (⟨[("1", 0)], 1, true, [7]⟩ : RecState Nat))
        (.delta ⟨[], []⟩) 5 ([("2", 1)], 5)).notified = [] ∧
    (listener (destroy (⟨[("1", 0)], 1, true, [7]⟩ : RecState Nat))
        (.delta ⟨[], []⟩) 5 ([("2", 1)], 5)).state.current = [("2", 1)] ∧
    (destroy (⟨[("1", 0)], 1, true, [7]⟩ : RecState Nat)).current = [("1", 0)] ∧
    (listener (destroy (⟨[("1", 0)], 1, true, [7]⟩ : RecState Nat))
        (.delta ⟨[], []⟩) 5 ([("2", 1)], 5)).state.current ≠
      (destroy (⟨[("1", 0)], 1, true, [7]⟩ : RecState Nat)).current := by
  refine ⟨by decide, by decide, by decide, by decide⟩

/-- C6 amended: after destroy() resolves, a delivered listener invocation
never applies the delta payload and invokes no subscriber; current is left
unchanged when the incoming version matches the incremented local counter,
but a mismatched version still triggers the resync, overwriting current and
version with the pair getCurrent resolves to. -/
theorem C6_amended_destroy_guard (s : RecState T) (value : Payload T)
    (incoming : Nat) (hostPair : MapArray T × Nat) :
    (listener (destroy s) value incoming hostPair).notified = [] ∧
    (listener (destroy s) value incoming hostPair).state.current =
      (if incoming = s.version + 1 then s.current else hostPair.1) ∧
    (listener (destroy s) value incoming hostPair).state.version =
      (if incoming = s.version + 1 then s.version + 1 else hostPair.2) := by
  refine ⟨?_, ?_, ?_⟩ <;> simp [listener, destroy]

/-- C7: in-sync delta application.  When the listening Reconciler receives a
delta whose version equals the incremented local counter, the new current is
the old current with every added entry appended and then every entry whose
key occurs in removed filtered out, every registered subscriber is invoked
exactly with that full resulting collection, and the counter advances to the
incoming version. -/
theorem C7_insync_delta_application (s : RecState T) (d : Delta T)
    (incoming : Nat) (hostPair : MapArray T × Nat)
    (hlisten : s.listening = true) (hver : incoming = s.version + 1) :
    (listener s (.delta d) incoming hostPair).state.current =
      ((s.current ++ d.added).filter fun p => !(d.removed.contains p.1)) ∧
    (listener s (.delta d) incoming hostPair).notified =
      (s.subscribers.map fun id =>
        (id, (s.current ++ d.added).filter fun p => !(d.removed.contains p.1))) ∧
    (listener s (.delta d) incoming hostPair).state.version = incoming := by
  subst hver
  refine ⟨?_, ?_, ?_⟩ <;> simp [listener, hlisten, applyPayload]

/-- C7 witnessed at a concrete in-sync input: current [("1", 0)], version 1,
subscriber 5, delta added [("2", 7)], removed ["1"], incoming version 2. -/
theorem C7_witness :
    ((⟨[("1", 0)], 1, true, [5]⟩ : RecState Nat).listening = true) ∧
    ((2 : Nat) = (⟨[("1", 0)], 1, true, [5]⟩ : RecState Nat).version + 1) ∧
    ((listener (⟨[("1", 0)], 1, true, [5]⟩ : RecState Nat)
        (.delta ⟨[("2", 7)], ["1"]⟩) 2 ([], 9)).state.current =
      ((([("1", 0)] : MapArray Nat) ++ [("2", 7)]).filter fun p =>
        !((["1"] : List String).contains p.1)) ∧
    (listener (⟨[("1", 0)], 1, true, [5]⟩ : RecState Nat)
        (.delta ⟨[("2", 7)], ["1"]⟩) 2 ([], 9)).notified =
      (([5] : List Nat).map fun id =>
        (id, (([("1", 0)] : MapArray Nat) ++ [("2", 7)]).filter fun p =>
          !((["1"] : List String).contains p.1))) ∧
    (listener (⟨[("1", 0)], 1, true, [5]⟩ : RecState Nat)
        (.delta ⟨[("2", 7)], ["1"]⟩) 2 ([], 9)).state.version = 2) :=
  ⟨rfl, rfl,
    C7_insync_delta_application ⟨[("1", 0)], 1, true, [5]⟩ ⟨[("2", 7)], ["1"]⟩ 2 ([], 9)
      rfl rfl⟩

/-- Whether every change of the event list happens while at least one
listener is registered on the underlying source: only then does the change
bump the version counter and produce an emission. -/
def changesCovered (s : PubState T) : List (PubEvent T) → Bool
  | [] => true
  | .change next :: es =>
    !s.subs.isEmpty && changesCovered (pubStep s (.change next)).1 es
  | .subscribe id :: es => changesCovered (pubStep s (.subscribe id)).1 es
  | .teardown id :: es => changesCovered (pubStep s (.teardown id)).1 es

/-- C8: getCurrent snapshot/version coherence.  Both components of the pair
are read from the same machine state, and whenever every change is emitted to
at least one subscriber, the returned version pins down the generation of the
returned value: if running further events leaves the version component of
getCurrent unchanged, the value component is unchanged too, so the value
never reflects a generation newer than the one the version denotes. -/
theorem C8_getCurrent_coherent (s : PubState T) (t : List (PubEvent T))
    (hcov : changesCovered s t = true)
    (hver : (getCurrent (pubRun s t).1).2 = (getCurrent s).2) :
    (getCurrent (pubRun s t).1).1 = (getCurrent s).1 := by
  induction t generalizing s with
  | nil => simp [pubRun]
  | cons e es ih =>
    cases e with
    | change next =>
      exfalso
      rw [changesCovered, Bool.and_eq_true] at hcov
      obtain ⟨h1, h2⟩ := hcov
      have hlen : 0 < s.subs.length := by
        cases hs : s.subs with
        | nil => rw [hs] at h1; simp at h1
        | cons a l => simp
      obtain ⟨hrv, _⟩ := pubRun_version_trace (pubStep s (.change next)).1 es
      obtain ⟨hev, _, _⟩ := emitLoop_spec s.subs (computeDelta s.currentRef next) s.version
      have hstep : (pubStep s (.change next)).1.version = s.version + s.subs.length := hev
      have hfin : (getCurrent (pubRun s (.change next :: es)).1).2 =
          (pubRun (pubStep s (.change next)).1 es).1.version := by
        rw [pubRun_cons_fst]; rfl
      rw [hfin, hrv, hstep] at hver
      have : (getCurrent s).2 = s.version := rfl
      rw [this] at hver
      omega
    | subscribe id =>
      rw [changesCovered] at hcov
      have hv : (pubStep s (.subscribe id)).1.version = s.version := rfl
      have hsrc : (pubStep s (.subscribe id)).1.source = s.source := rfl
      have h := ih (pubStep s (.subscribe id)).1 hcov
      rw [pubRun_cons_fst]
      rw [pubRun_cons_fst] at hver
      exact (h (by rw [hver]; rfl)).trans hsrc
    | teardown id =>
      rw [changesCovered] at hcov
      have hsrc : (pubStep s (.teardown id)).1.source = s.source := rfl
      have h := ih (pubStep s (.teardown id)).1 hcov
      rw [pubRun_cons_fst]
      rw [pubRun_cons_fst] at hver
      exact (h (by rw [hver]; rfl)).trans hsrc

/-- C8 witnessed at a concrete input: a Publisher over [("1", 0)] with a
subscriber registering and tearing down (no change), where the version is
unchanged and so is the value. -/
theorem C8_witness :
    changesCovered (pubInit ([("1", 0)] : MapArray Nat)) [.subscribe 0, .teardown 0] = true ∧
    (getCurrent
        (pubRun (pubInit ([("1", 0)] : MapArray Nat)) [.subscribe 0, .teardown 0]).1).2 =
      (getCurrent (pubInit ([("1", 0)] : MapArray Nat))).2 ∧
    (getCurrent
        (pubRun (pubInit ([("1", 0)] : MapArray Nat)) [.subscribe 0, .teardown 0]).1).1 =
      (getCurrent (pubInit ([("1", 0)] : MapArray Nat))).1 :=
  ⟨by decide, by decide,
    C8_getCurrent_coherent (pubInit [("1", 0)]) [.subscribe 0, .teardown 0]
      (by decide) (by decide)⟩

/-- C9 counterexample: the teardown closure performs its two effects in the
order unsubscribe-then-release, not release-then-unsubscribe as claimed. -/
theorem C9_teardown_order_counterexample :
    pubTeardownEffects 0 = [.sourceUnsubscribe 0, .release 0] ∧
    pubTeardownEffects 0 ≠ [.release 0, .sourceUnsubscribe 0] := by
  refine ⟨by decide, by decide⟩

/-- C9 amended: teardown first unsubscribes the listener from the underlying
observable source and then releases the cross-boundary retention hold on the
subscriber, in that order; running the two effects removes the listener from
the source's listener list and the subscriber from the retention table. -/
theorem C9_amended_teardown_order (id : Nat) (w : RpcWorld) :
    pubTeardownEffects id = [.sourceUnsubscribe id, .release id] ∧
    runEffects w (pubTeardownEffects id) =
      ⟨w.retained.erase id, w.sourceSubs.erase id⟩ := by
  refine ⟨rfl, ?_⟩
  simp [runEffects, pubTeardownEffects, applyEffect]

/-- C10: frame property of Reconciler subscription management.  subscribe and
the unsubscribe closure it returns never change current, the local version
counter or the listening flag; unsubscribing removes exactly the callback
that was subscribed, leaves every other registered subscriber in place, and
is idempotent; subscribing adds exactly that callback. -/
theorem C10_subscription_frame (s : RecState T) (id : Nat) :
    (recSubscribe s id).current = s.current ∧
    (recSubscribe s id).version = s.version ∧
    (recSubscribe s id).listening = s.listening ∧
    (recUnsubscribe s id).current = s.current ∧
    (recUnsubscribe s id).version = s.version ∧
    (recUnsubscribe s id).listening = s.listening ∧
    (∀ j : Nat, j ∈ (recUnsubscribe s id).subscribers ↔ j ∈ s.subscribers ∧ j ≠ id) ∧
    (∀ j : Nat, j ∈ (recSubscribe s id).subscribers ↔ j ∈ s.subscribers ∨ j = id) ∧
    recUnsubscribe (recUnsubscribe s id) id = recUnsubscribe s id := by
  refine ⟨rfl, rfl, rfl, rfl, rfl, rfl, ?_, ?_, ?_⟩
  · intro j
    simp [recUnsubscribe, List.mem_filter]
  · intro j
    by_cases hid : id ∈ s.subscribers
    · have hc : s.subscribers.contains id = true := by simpa using hid
      simp only [recSubscribe, hc, if_true]
      constructor
      · intro hj
        exact Or.inl hj
      · rintro (hj | hj)
        · exact hj
        · rw [hj]; exact hid
    · simp [recSubscribe, hid, List.mem_append]
  · simp [recUnsubscribe, List.filter_filter]

end StateBridge
